import Mathlib

/-!
Verification of the `eplda` English Premier League data client.

This file gives a shallow embedding of the request executor and the
response-normalisation pipeline of `eplda/api.py` (together with the static
stat catalogs of `eplda/constants.py`) and proves the frozen claims about
them.

Modelling conventions, used throughout:

* Python `ValueError`s are modelled by `PyErr`, a pair of a message (the exact
  formatted Python message) and a `kind` tag classifying the raise site
  (not-found, no-data, rate-limited, ...).  The tag is an annotation of the
  raise site; re-raising wrappers such as
  `raise ValueError(f"Error processing season data: {e}")` keep the tag of the
  wrapped error and only prefix its message, exactly as the code only changes
  the message.
* JSON numbers on the wire are modelled by `JNum` (an integer or a non-integer
  numeric literal), so that Python `str(int(x))` canonicalisation is visible.
* Fields that the code reads with `dict.get` (returning `None` when absent)
  are modelled as `Option`; fields the code reads with `d[k]` (raising
  `KeyError` when absent) are modelled as mandatory fields, i.e. responses
  whose mandatory fields are missing (which the code turns into wrapped
  `KeyError`/`TypeError` messages) are outside the modelled input space.
* `pandas.DataFrame` rendering keeps exactly the projected records, so the
  `"df"` output branch is modelled as returning the same record list as the
  `"json"` branch.
-/

namespace Eplda

/-- Boolean test that `pat` is a prefix of `s` (on character lists). -/
def listIsPre : List Char → List Char → Bool
  | [], _ => true
  | _ :: _, [] => false
  | a :: as, b :: bs => a == b && listIsPre as bs

/-- Boolean test that `pat` occurs as a contiguous sublist of `s`. -/
def listHasSub (pat : List Char) : List Char → Bool
  | [] => listIsPre pat []
  | c :: rest => listIsPre pat (c :: rest) || listHasSub pat rest

/-- Python `pat in s` on strings: substring containment. -/
def pyIn (pat s : String) : Bool :=
  listHasSub pat.toList s.toList

theorem listIsPre_append {p x : List Char} (h : listIsPre p x = true) (y : List Char) :
    listIsPre p (x ++ y) = true := by
  induction p generalizing x with
  | nil => rfl
  | cons a as ih =>
    cases x with
    | nil => simp [listIsPre] at h
    | cons b bs =>
      simp only [listIsPre, Bool.and_eq_true] at h ⊢
      exact ⟨h.1, ih h.2⟩

theorem listHasSub_of_isPre {p s : List Char} (h : listIsPre p s = true) :
    listHasSub p s = true := by
  cases s with
  | nil => simpa [listHasSub] using h
  | cons c rest => simp [listHasSub, h]

theorem listHasSub_append_right {p y : List Char} (h : listHasSub p y = true)
    (x : List Char) : listHasSub p (x ++ y) = true := by
  induction x with
  | nil => simpa using h
  | cons a as ih => simp [listHasSub, ih]

/-- If `pat` is a prefix of `pre`, then `pyIn pat (pre ++ rest)` holds. -/
theorem pyIn_of_pre {pat pre : String} (h : listIsPre pat.toList pre.toList = true)
    (rest : String) : pyIn pat (pre ++ rest) = true := by
  have : (pre ++ rest).toList = pre.toList ++ rest.toList := by
    simp [String.toList, String.data_append]
  rw [pyIn, this]
  exact listHasSub_of_isPre (listIsPre_append h _)

/-- If `pat` occurs in `suf`, then it occurs in `pre ++ suf`. -/
theorem pyIn_of_suf {pat suf : String} (h : pyIn pat suf = true) (pre : String) :
    pyIn pat (pre ++ suf) = true := by
  have : (pre ++ suf).toList = pre.toList ++ suf.toList := by
    simp [String.toList, String.data_append]
  rw [pyIn, this]
  exact listHasSub_append_right h _

/-- Classification tag for a raised `ValueError`, following the raise site. -/
inductive ErrKind where
  | invalidArgument
  | notFound
  | noData
  | rateLimited
  | networkFailure
  | upstreamError
  | malformedResponse
  | aggregateFailure
deriving DecidableEq

/-- A raised Python `ValueError`: classification tag plus the exact message. -/
structure PyErr where
  kind : ErrKind
  msg : String
deriving DecidableEq

/-- A JSON number on the wire: either an integer literal or a non-integer
numeric literal (a float), carried as an exact rational. -/
inductive JNum where
  | jint (n : ℤ)
  | jfloat (q : ℚ)
deriving DecidableEq

/-- Numeric value of a wire number. -/
def JNum.toRat : JNum → ℚ
  | .jint n => (n : ℚ)
  | .jfloat q => q

/-- Python `int()` truncation toward zero of a rational. -/
def pyTrunc (q : ℚ) : ℤ :=
  Int.tdiv q.num (q.den : ℤ)

/-- Python `int(x)` on a JSON number: identity on integers, truncation on
floats. -/
def JNum.pyInt : JNum → ℤ
  | .jint n => n
  | .jfloat q => pyTrunc q

/-- Python `str(int(x))`: the canonical decimal string of the integer value of
a wire number. -/
def canonId (j : JNum) : String :=
  toString j.pyInt

/-- Python `str(x)` on a JSON number.  The float branch abstracts CPython
float formatting by the rational literal; no claim depends on it. -/
def pyStrNum : JNum → String
  | .jint n => toString n
  | .jfloat q => toString q

/-!
## Request executor: `EPLAPI._make_request` (`api.py` lines 24-68)

The network is modelled by a stream of per-attempt outcomes
(`events : ℕ → HttpEvent α`): attempt `i` of the loop observes `events i`.
A parsed 200 body is `response 200 _ (some a)`; a 200 body that is not valid
JSON is `response 200 _ none`.  The `Retry-After` header is `some n` when
present with numeric value `n`, `none` when absent.
-/

/-- Outcome of one `requests.get` attempt. -/
inductive HttpEvent (α : Type) where
  | response (status : ℕ) (retryAfter : Option ℤ) (body : Option α)
  | timeout
  | connectionError
  | requestException (msg : String)

/-- Message of the exhausted-retries 429 failure. -/
def rateLimitMsg (retryAfter : ℤ) : String :=
  "Rate limit exceeded. Please wait " ++ toString retryAfter ++
    " seconds before retrying."

/-- One pass of the retry loop of `_make_request`, from loop index `attempt`
with `fuel` iterations of `range(max_retries + 1)` remaining.  Returns the
list of `time.sleep` delays performed (in order) and the final outcome;
`.ok none` is the implicit `None` return of a completed `for` loop (reachable
only with zero iterations). -/
def make_request_aux (retry_delay : ℤ) (max_retries : ℕ) (events : ℕ → HttpEvent α) :
    ℕ → ℕ → List ℤ × Except PyErr (Option α)
  | _, 0 => ([], .ok none)
  | attempt, fuel + 1 =>
    match events attempt with
    | .response status retryAfter body =>
      if status == 429 then
        let retry_after := retryAfter.getD 60
        if attempt < max_retries then
          let rest := make_request_aux retry_delay max_retries events (attempt + 1) fuel
          (retry_after :: rest.1, rest.2)
        else
          ([], .error ⟨.rateLimited, rateLimitMsg retry_after⟩)
      else if status == 200 then
        match body with
        | some a => ([], .ok (some a))
        | none => ([], .error ⟨.malformedResponse, "Invalid JSON response from API"⟩)
      else
        ([], .error ⟨.upstreamError,
          "API request failed with status code " ++ toString status⟩)
    | .timeout =>
      if attempt < max_retries then
        let rest := make_request_aux retry_delay max_retries events (attempt + 1) fuel
        (retry_delay :: rest.1, rest.2)
      else
        ([], .error ⟨.networkFailure,
          "Request timeout. Please check your internet connection."⟩)
    | .connectionError =>
      if attempt < max_retries then
        let rest := make_request_aux retry_delay max_retries events (attempt + 1) fuel
        (retry_delay :: rest.1, rest.2)
      else
        ([], .error ⟨.networkFailure,
          "Connection error. Please check your internet connection."⟩)
    | .requestException m =>
      ([], .error ⟨.networkFailure, "Network error: " ++ m⟩)

/-- `EPLAPI._make_request`: run the retry loop
`for attempt in range(max_retries + 1)` from attempt 0. -/
def make_request (retry_delay : ℤ) (max_retries : ℕ) (events : ℕ → HttpEvent α) :
    List ℤ × Except PyErr (Option α) :=
  make_request_aux retry_delay max_retries events 0 (max_retries + 1)

theorem make_request_aux_429_step (retry_delay : ℤ) (max_retries : ℕ)
    (events : ℕ → HttpEvent α) (attempt fuel : ℕ) (retryAfter : Option ℤ)
    (body : Option α) (hlt : attempt < max_retries)
    (hev : events attempt = .response 429 retryAfter body) :
    make_request_aux retry_delay max_retries events attempt (fuel + 1) =
      ((retryAfter.getD 60) ::
          (make_request_aux retry_delay max_retries events (attempt + 1) fuel).1,
        (make_request_aux retry_delay max_retries events (attempt + 1) fuel).2) := by
  rw [make_request_aux, hev]
  simp [hlt]

theorem make_request_aux_429_stop (retry_delay : ℤ) (max_retries : ℕ)
    (events : ℕ → HttpEvent α) (attempt fuel : ℕ) (retryAfter : Option ℤ)
    (body : Option α) (hge : ¬ attempt < max_retries)
    (hev : events attempt = .response 429 retryAfter body) :
    make_request_aux retry_delay max_retries events attempt (fuel + 1) =
      ([], .error ⟨.rateLimited, rateLimitMsg (retryAfter.getD 60)⟩) := by
  rw [make_request_aux, hev]
  simp [hge]

theorem make_request_aux_all429 (retry_delay : ℤ) (max_retries : ℕ)
    (events : ℕ → HttpEvent α)
    (h : ∀ i, events i = .response 429 (some 60) none) :
    ∀ fuel attempt, attempt + fuel = max_retries + 1 → 1 ≤ fuel →
      make_request_aux retry_delay max_retries events attempt fuel =
        (List.replicate (max_retries - attempt) 60,
          .error ⟨.rateLimited, rateLimitMsg 60⟩) := by
  intro fuel
  induction fuel with
  | zero => omega
  | succ k ih =>
    intro attempt hsum _
    cases k with
    | zero =>
      have hat : attempt = max_retries := by omega
      subst hat
      rw [make_request_aux_429_stop retry_delay _ events _ _ _ _ (lt_irrefl _) (h _)]
      simp
    | succ k' =>
      have hlt : attempt < max_retries := by omega
      have hrest := ih (attempt + 1) (by omega) (by omega)
      rw [make_request_aux_429_step retry_delay _ events _ _ _ _ hlt (h _), hrest]
      have hrep : max_retries - attempt = (max_retries - (attempt + 1)) + 1 := by omega
      simp [hrep, List.replicate_succ]

/-- C1: on a 429 response, the executor, when retries remain, delays by the
`Retry-After` value (60 seconds when the header is absent) and retries
(part 1); a single 429 with `Retry-After: 60` followed by a success yields
exactly one retry-delay of 60 seconds before the call succeeds (part 2); and
when every attempt is answered 429 with `Retry-After: 60`, each attempt but
the last sleeps 60 seconds and the call fails with the rate-limited error
after retries are exhausted (part 3). -/
theorem claim_C1 {α : Type} (retry_delay : ℤ) (max_retries : ℕ)
    (events : ℕ → HttpEvent α) :
    (∀ attempt fuel retryAfter body, attempt < max_retries →
        events attempt = .response 429 retryAfter body →
        make_request_aux retry_delay max_retries events attempt (fuel + 1) =
          ((retryAfter.getD 60) ::
              (make_request_aux retry_delay max_retries events (attempt + 1) fuel).1,
            (make_request_aux retry_delay max_retries events (attempt + 1) fuel).2))
    ∧
    (∀ a : α, 0 < max_retries →
        events 0 = .response 429 (some 60) none →
        events 1 = .response 200 none (some a) →
        make_request retry_delay max_retries events = ([60], .ok (some a)))
    ∧
    ((∀ i, events i = .response 429 (some 60) none) →
        make_request retry_delay max_retries events =
          (List.replicate max_retries 60,
            .error ⟨.rateLimited, rateLimitMsg 60⟩)) := by
  refine ⟨?_, ?_, ?_⟩
  · intro attempt fuel retryAfter body hlt hev
    exact make_request_aux_429_step retry_delay max_retries events attempt fuel
      retryAfter body hlt hev
  · intro a hpos h0 h1
    obtain ⟨k, rfl⟩ := Nat.exists_eq_succ_of_ne_zero (Nat.pos_iff_ne_zero.mp hpos)
    rw [make_request,
      make_request_aux_429_step _ _ _ _ _ _ _ (Nat.succ_pos k) h0]
    rw [make_request_aux, h1]
    simp
  · intro hall
    rw [make_request, make_request_aux_all429 retry_delay max_retries events hall
      (max_retries + 1) 0 (by omega) (by omega)]
    simp

/-- Event stream answering every attempt with 429 and `Retry-After: 60`. -/
def ev429 : ℕ → HttpEvent Unit := fun _ => .response 429 (some 60) none

/-- Witness for C1 at the default configuration (`max_retries = 3`,
`retry_delay = 1`): three 60-second delays, then the rate-limited failure. -/
theorem claim_C1_witness :
    make_request 1 3 ev429 =
      ([60, 60, 60], .error ⟨.rateLimited, rateLimitMsg 60⟩) := by
  have h := (claim_C1 1 3 ev429).2.2 (fun i => rfl)
  rw [h]
  rfl

/-!
## Season projection: `EPLAPI.get_season_id` (`api.py` lines 94-133)
-/

/-- One entry of the `content` array of the seasons response.  `label` is read
with `season.get("label")` (hence optional), `id` with `season["id"]`. -/
structure SeasonEntry where
  label : Option String
  id : JNum
deriving DecidableEq

/-- The seasons response; `content` is `none` when the `"content"` key is
missing. -/
structure SeasonsResponse where
  content : Option (List SeasonEntry)
deriving DecidableEq

/-- Message of the unmatched-label failure. -/
def seasonNotFoundMsg (label : String) : String :=
  "Season \x27" ++ label ++
    "\x27 not found. Please check the season format (e.g., \x272024/25\x27)"

/-- Python `max(xs, key=key)` over a non-empty list: keeps the first element
with maximal key. -/
def pyMaxBy (key : α → ℚ) : α → List α → α
  | best, [] => best
  | best, x :: xs => pyMaxBy key (if key best < key x then x else best) xs

/-- The no-label branch of `get_season_id`: empty list check, then the entry
of maximal `id`. -/
def latest_season_id (seasons : List SeasonEntry) : Except PyErr String :=
  match seasons with
  | [] => .error ⟨.noData, "No seasons available from API"⟩
  | s :: rest => .ok (canonId (pyMaxBy (fun e => e.id.toRat) s rest).id)

/-- The message test of the `except` clause of `get_season_id`: re-raise
unchanged when it passes, otherwise wrap. -/
def seasonKeep (m : String) : Bool :=
  pyIn "Season" m || pyIn "not found" m || pyIn "Invalid" m

/-- Body of `get_season_id` (the `try` block).  `if season_label:` is Python
truthiness: both `None` and the empty string select the latest-season
branch. -/
def get_season_id_inner (resp : SeasonsResponse) (season_label : Option String) :
    Except PyErr String :=
  match resp.content with
  | none => .error ⟨.malformedResponse, "Invalid season data response from API"⟩
  | some seasons =>
    match season_label with
    | some label =>
      if label == "" then latest_season_id seasons
      else
        match seasons.find? (fun s => s.label == some label) with
        | some s => .ok (canonId s.id)
        | none => .error ⟨.notFound, seasonNotFoundMsg label⟩
    | none => latest_season_id seasons

/-- `EPLAPI.get_season_id`: the body wrapped by the message-filtering
`except` clause. -/
def get_season_id (resp : SeasonsResponse) (season_label : Option String) :
    Except PyErr String :=
  match get_season_id_inner resp season_label with
  | .ok v => .ok v
  | .error e =>
    if seasonKeep e.msg then .error e
    else .error ⟨e.kind, "Error processing season data: " ++ e.msg⟩

theorem find_unique {p : α → Bool} {l : List α} {e : α} (he : e ∈ l)
    (hpe : p e = true) (huniq : ∀ x ∈ l, p x = true → x = e) :
    l.find? p = some e := by
  induction l with
  | nil => cases he
  | cons a as ih =>
    by_cases hpa : p a = true
    · have ha : a = e := huniq a (List.mem_cons_self a as) hpa
      subst ha
      simp [List.find?, hpa]
    · have hfa : p a = false := by
        cases hval : p a
        · rfl
        · exact absurd hval hpa
      have hne : e ≠ a := fun h => hpa (h ▸ hpe)
      have he' : e ∈ as := by
        rcases List.mem_cons.mp he with h | h
        · exact absurd h hne
        · exact h
      have ht : as.find? p = some e :=
        ih he' (fun x hx hpx => huniq x (List.mem_cons_of_mem a hx) hpx)
      simp [List.find?, hfa, ht]

theorem seasonKeep_notFoundMsg (label : String) :
    seasonKeep (seasonNotFoundMsg label) = true := by
  have h : pyIn "Season" (seasonNotFoundMsg label) = true := by
    rw [seasonNotFoundMsg, String.append_assoc]
    exact pyIn_of_pre (by decide) _
  simp [seasonKeep, h]

theorem pyMaxBy_mem (key : α → ℚ) (b : α) (l : List α) :
    pyMaxBy key b l ∈ b :: l := by
  induction l generalizing b with
  | nil => simp [pyMaxBy]
  | cons x xs ih =>
    rw [pyMaxBy]
    rcases List.mem_cons.mp (ih (if key b < key x then x else b)) with h | h
    · by_cases hlt : key b < key x
      · rw [if_pos hlt] at h ⊢
        rw [h]
        simp
      · rw [if_neg hlt] at h ⊢
        rw [h]
        simp
    · exact List.mem_cons_of_mem _ (List.mem_cons_of_mem _ h)

/-- The mocked season list of the spec:
`{"2025/26": 777, "2024/25": 719, "2023/24": 578}`. -/
def demoSeasons : List SeasonEntry :=
  [⟨some "2025/26", .jint 777⟩, ⟨some "2024/25", .jint 719⟩,
    ⟨some "2023/24", .jint 578⟩]

/-- C3 (amended): for every season list and every NON-EMPTY label, if exactly
one entry carries that label then `get_season_id` returns that entry's
identifier as its canonical decimal string; if no entry carries the label it
fails with the not-found error; and with no label it returns the maximum
identifier (on the spec's mocked list, `"777"`).  The amendment restricts the
label cases to non-empty labels: Python truthiness makes
`get_season_id("")` take the latest-season branch (see the counterexample). -/
theorem claim_C3 (seasons : List SeasonEntry) (label : String)
    (hne : ¬ label = "") :
    (∀ e ∈ seasons, e.label = some label →
      (∀ x ∈ seasons, x.label = some label → x = e) →
      get_season_id ⟨some seasons⟩ (some label) = .ok (canonId e.id)) ∧
    ((∀ x ∈ seasons, ¬ x.label = some label) →
      get_season_id ⟨some seasons⟩ (some label) =
        .error ⟨.notFound, seasonNotFoundMsg label⟩) ∧
    get_season_id ⟨some demoSeasons⟩ none = .ok "777" := by
  refine ⟨?_, ?_, ?_⟩
  · intro e he hl hu
    have hfind : seasons.find? (fun s => s.label == some label) = some e :=
      find_unique he (by simp [hl]) (fun x hx hpx => hu x hx (by simpa using hpx))
    simp [get_season_id, get_season_id_inner, hne, hfind]
  · intro hnone
    have hfind : seasons.find? (fun s => s.label == some label) = none :=
      List.find?_eq_none.mpr (fun x hx => by simpa using hnone x hx)
    simp [get_season_id, get_season_id_inner, hne, hfind, seasonKeep_notFoundMsg]
  · rfl

/-- Season list containing an entry whose label is the empty string. -/
def c3Resp : SeasonsResponse :=
  ⟨some [⟨some "", .jint 5⟩, ⟨some "2024/25", .jint 10⟩]⟩

/-- Counterexample to C3 as frozen: the list contains an entry whose label
exactly equals the given label `""` and whose identifier is `"5"`, yet
`get_season_id` returns `"10"` (the maximum identifier), because Python
truthiness sends the empty-string label into the latest-season branch. -/
theorem claim_C3_counterexample :
    c3Resp.content = some [⟨some "", .jint 5⟩, ⟨some "2024/25", .jint 10⟩] ∧
    canonId (JNum.jint 5) = "5" ∧
    get_season_id c3Resp (some "") = .ok "10" ∧
    ¬ get_season_id c3Resp (some "") = .ok "5" := by
  refine ⟨rfl, rfl, rfl, ?_⟩
  intro h
  rw [show get_season_id c3Resp (some "") = .ok "10" from rfl] at h
  exact absurd (Except.ok.inj h) (by decide)

/-- Witness for C3 on the spec's mocked season list: the label `"2024/25"`
resolves to `"719"` and the absent label `"2026/27"` fails not-found. -/
theorem claim_C3_witness :
    get_season_id ⟨some demoSeasons⟩ (some "2024/25") =
      .ok (canonId (JNum.jint 719)) ∧
    get_season_id ⟨some demoSeasons⟩ (some "2026/27") =
      .error ⟨.notFound, seasonNotFoundMsg "2026/27"⟩ := by
  constructor
  · exact (claim_C3 demoSeasons "2024/25" (by decide)).1
      ⟨some "2024/25", .jint 719⟩ (by decide) rfl (by decide)
  · exact (claim_C3 demoSeasons "2026/27" (by decide)).2.1 (by decide)

/-- C4 (amended): on a season response whose `content` array is empty, a
supplied (non-empty) label fails with the not-found error — not the no-data
error — while the no-label call fails with the no-data condition
(`"No seasons available from API"`, surfaced with the
`"Error processing season data: "` message prefix added by the `except`
clause).  The amendment drops "regardless of whether a label was supplied"
from the claim. -/
theorem claim_C4 (resp : SeasonsResponse) (h : resp.content = some [])
    (label : String) (hne : ¬ label = "") :
    get_season_id resp (some label) =
      .error ⟨.notFound, seasonNotFoundMsg label⟩ ∧
    get_season_id resp none =
      .error ⟨.noData,
        "Error processing season data: No seasons available from API"⟩ := by
  constructor
  · simp [get_season_id, get_season_id_inner, h, hne, seasonKeep_notFoundMsg,
      List.find?]
  · have hk : seasonKeep "No seasons available from API" = false := by decide
    simp [get_season_id, get_season_id_inner, h, latest_season_id, hk]

/-- Counterexample to C4 as frozen: with an empty season list and the label
`"2024/25"` supplied, the failure is the not-found error, not the no-data
error. -/
theorem claim_C4_counterexample :
    get_season_id ⟨some []⟩ (some "2024/25") =
      .error ⟨.notFound, seasonNotFoundMsg "2024/25"⟩ ∧
    ErrKind.notFound ≠ ErrKind.noData := by
  exact ⟨rfl, by decide⟩

/-- Witness for C4 at the empty season list with label `"2024/25"`. -/
theorem claim_C4_witness :
    get_season_id ⟨some []⟩ (some "2024/25") =
      .error ⟨.notFound, seasonNotFoundMsg "2024/25"⟩ ∧
    get_season_id ⟨some []⟩ none =
      .error ⟨.noData,
        "Error processing season data: No seasons available from API"⟩ := by
  exact claim_C4 ⟨some []⟩ rfl "2024/25" (by decide)

/-!
## Output formatting: `_validate_output_format` / `_format_output`
(`api.py` lines 70-91)
-/

/-- `OutputFormats.is_valid` from `constants.py`. -/
def outputFormatValid (format_type : String) : Bool :=
  format_type == "json" || format_type == "df"

/-- Message of the invalid-output-format failure. -/
def invalidOutputMsg (f : String) : String :=
  "Invalid output format \x27" ++ f ++
    "\x27. Valid options are: \x27json\x27, \x27df\x27"

/-- `EPLAPI._format_output`: validates the requested shape and returns the
records (the DataFrame rendering keeps exactly the same records). -/
def format_output (data : List α) (output : String) : Except PyErr (List α) :=
  if outputFormatValid output then .ok data
  else .error ⟨.invalidArgument, invalidOutputMsg output⟩

/-- Folding `append-if` over a list is `filter` then `map`. -/
theorem foldl_filter_map (p : α → Bool) (f : α → β) (l : List α) (acc : List β) :
    l.foldl (fun acc x => if p x then acc ++ [f x] else acc) acc =
      acc ++ (l.filter p).map f := by
  induction l generalizing acc with
  | nil => simp
  | cons a as ih =>
    by_cases hp : p a = true
    · simp [List.foldl, hp, ih, List.filter_cons]
    · have hp' : p a = false := by
        cases hval : p a
        · rfl
        · exact absurd hval hp
      simp [List.foldl, hp', ih, List.filter_cons]

/-!
## Club-list projection: `EPLAPI.get_club_ids` (`api.py` lines 147-173)
-/

/-- One entry of the clubs-in-season response.  All three fields are read via
`team.get(...)`; `id` is mandatory here because a `"FIRST"` entry without an
id makes `int(None)` raise a `TypeError` (outside the modelled inputs). -/
structure ClubEntry where
  teamType : Option String
  shortName : Option String
  id : JNum
deriving DecidableEq

/-- An output record `{"Name": ..., "Team ID": ...}` of `get_club_ids`. -/
structure ClubRecord where
  name : Option String
  teamId : String
deriving DecidableEq

/-- Message of the empty-club-list failure. -/
def noClubsMsg (season_id : String) : String :=
  "No clubs found for season " ++ season_id

/-- Projection of one `"FIRST"` club entry. -/
def projectClub (t : ClubEntry) : ClubRecord :=
  ⟨t.shortName, canonId t.id⟩

/-- The `team_data` accumulation loop of `get_club_ids`. -/
def first_team_records (clubs_data : List ClubEntry) : List ClubRecord :=
  clubs_data.foldl
    (fun acc t => if t.teamType == some "FIRST" then acc ++ [projectClub t] else acc)
    []

/-- Body of `get_club_ids` (the `try` block). -/
def get_club_ids_inner (season_id : String) (clubs_data : List ClubEntry)
    (output : String) : Except PyErr (List ClubRecord) :=
  let team_data := first_team_records clubs_data
  if team_data.isEmpty then .error ⟨.noData, noClubsMsg season_id⟩
  else format_output team_data output

/-- `EPLAPI.get_club_ids`: the body wrapped by the message-filtering `except`
clause. -/
def get_club_ids (season_id : String) (clubs_data : List ClubEntry)
    (output : String) : Except PyErr (List ClubRecord) :=
  match get_club_ids_inner season_id clubs_data output with
  | .ok v => .ok v
  | .error e =>
    if pyIn "No clubs found" e.msg then .error e
    else .error ⟨e.kind, "Error processing club data: " ++ e.msg⟩

theorem noClubs_keep (season_id : String) :
    pyIn "No clubs found" (noClubsMsg season_id) = true := by
  rw [noClubsMsg]
  exact pyIn_of_pre (by decide) _

theorem first_team_records_eq (clubs_data : List ClubEntry) :
    first_team_records clubs_data =
      (clubs_data.filter (fun t => t.teamType == some "FIRST")).map projectClub := by
  simpa [first_team_records] using
    foldl_filter_map (fun t => t.teamType == some "FIRST") projectClub clubs_data []

theorem get_club_ids_ok (season_id : String) (clubs_data : List ClubEntry)
    (hne : ¬ clubs_data.filter (fun t => t.teamType == some "FIRST") = []) :
    get_club_ids season_id clubs_data "json" =
      .ok ((clubs_data.filter (fun t => t.teamType == some "FIRST")).map
        projectClub) := by
  have hemp : ((clubs_data.filter (fun t => t.teamType == some "FIRST")).map
      projectClub).isEmpty = false := by
    simp [List.isEmpty_iff, hne]
  simp [get_club_ids, get_club_ids_inner, first_team_records_eq, hemp,
    format_output, outputFormatValid]

/-- C7: `get_club_ids` returns exactly the entries whose team-type tag equals
`"FIRST"`, each mapped to a `{name, id}` record, preserving upstream order;
other entries are excluded; and it fails with the no-data error when the
filtered result is empty. -/
theorem claim_C7 (season_id : String) (clubs_data : List ClubEntry) :
    (¬ clubs_data.filter (fun t => t.teamType == some "FIRST") = [] →
      get_club_ids season_id clubs_data "json" =
        .ok ((clubs_data.filter (fun t => t.teamType == some "FIRST")).map
          projectClub)) ∧
    (clubs_data.filter (fun t => t.teamType == some "FIRST") = [] →
      get_club_ids season_id clubs_data "json" =
        .error ⟨.noData, noClubsMsg season_id⟩) ∧
    (∀ t : ClubEntry, projectClub t = ⟨t.shortName, canonId t.id⟩) := by
  refine ⟨fun hne => get_club_ids_ok season_id clubs_data hne, ?_, fun t => rfl⟩
  intro hemp
  have hfe : (first_team_records clubs_data).isEmpty = true := by
    simp [first_team_records_eq, hemp]
  simp [get_club_ids, get_club_ids_inner, hfe, noClubs_keep]

/-- The mocked club list of the spec's tests, with one reserve entry added. -/
def demoClubs : List ClubEntry :=
  [⟨some "FIRST", some "Arsenal", .jint 1⟩,
    ⟨some "FIRST", some "Chelsea", .jint 4⟩,
    ⟨some "U21", some "Chelsea U21", .jint 401⟩,
    ⟨some "FIRST", some "Liverpool", .jint 10⟩]

/-- Witness for C7: the three `"FIRST"` entries survive in order, the `"U21"`
entry is dropped. -/
theorem claim_C7_witness :
    get_club_ids "719" demoClubs "json" =
      .ok [⟨some "Arsenal", "1"⟩, ⟨some "Chelsea", "4"⟩,
        ⟨some "Liverpool", "10"⟩] := by
  have h := (claim_C7 "719" demoClubs).1 (by decide)
  rw [h]
  rfl

/-!
## Table projection: `EPLAPI.get_club_tables` (`api.py` lines 176-225)
-/

/-- The `team` sub-object of a standings entry. -/
structure TeamObj where
  name : Option String
  id : Option JNum
deriving DecidableEq

/-- The `overall` sub-object of a standings entry; every field is read with
`overall.get(..., 0)`. -/
structure Overall where
  played : Option ℤ
  won : Option ℤ
  drawn : Option ℤ
  lost : Option ℤ
  goalsFor : Option ℤ
  goalsAgainst : Option ℤ
  goalsDifference : Option ℤ
  points : Option ℤ
deriving DecidableEq

/-- One entry of `tables[0].entries`.  `position` is mandatory: entries
without a position make the Python key sort raise a `TypeError` (outside the
modelled inputs). -/
structure TableEntry where
  position : ℤ
  team : TeamObj
  overall : Overall
deriving DecidableEq

/-- One element of the `tables` array. -/
structure TableBlock where
  entries : List TableEntry
deriving DecidableEq

/-- The standings response; `tables` is read with `response.get("tables", [])`. -/
structure TablesResponse where
  tables : List TableBlock
deriving DecidableEq

/-- An output record of `get_club_tables`. -/
structure TableRecord where
  position : ℤ
  club : Option String
  clubId : String
  played : ℤ
  won : ℤ
  drawn : ℤ
  lost : ℤ
  goalsFor : ℤ
  goalsAgainst : ℤ
  goalDifference : ℤ
  points : ℤ
deriving DecidableEq

/-- Projection of one standings entry into an output record
(`str(team.get("id", ""))` stringifies the raw id, without `int()`). -/
def projectTableEntry (e : TableEntry) : TableRecord where
  position := e.position
  club := e.team.name
  clubId := match e.team.id with | some j => pyStrNum j | none => ""
  played := e.overall.played.getD 0
  won := e.overall.won.getD 0
  drawn := e.overall.drawn.getD 0
  lost := e.overall.lost.getD 0
  goalsFor := e.overall.goalsFor.getD 0
  goalsAgainst := e.overall.goalsAgainst.getD 0
  goalDifference := e.overall.goalsDifference.getD 0
  points := e.overall.points.getD 0

/-- Comparison used by `table_data.sort(key=lambda x: x["Position"])`. -/
def posLe (a b : TableRecord) : Prop :=
  a.position ≤ b.position

instance : DecidableRel posLe :=
  fun a b => inferInstanceAs (Decidable (a.position ≤ b.position))

instance : IsTotal TableRecord posLe :=
  ⟨fun a b => le_total a.position b.position⟩

instance : IsTrans TableRecord posLe :=
  ⟨fun _ _ _ hab hbc => le_trans hab hbc⟩

/-- The `table_data` accumulation loop of `get_club_tables`. -/
def table_records (entries : List TableEntry) : List TableRecord :=
  entries.foldl (fun acc e => acc ++ [projectTableEntry e]) []

/-- `EPLAPI.get_club_tables` on a standings response.  Its
`except (KeyError, TypeError)` clause is unreachable on the modelled inputs,
and `ValueError`s pass through it unchanged, so no wrapping occurs. -/
def get_club_tables (season_id : String) (resp : TablesResponse)
    (output : String) : Except PyErr (List TableRecord) :=
  match resp.tables with
  | [] => .error ⟨.noData, "No table data found for season " ++ season_id⟩
  | main_table :: _ =>
    if main_table.entries.isEmpty then
      .error ⟨.noData, "No standings entries found for season " ++ season_id⟩
    else
      format_output (List.insertionSort posLe (table_records main_table.entries))
        output

theorem table_records_eq (entries : List TableEntry) :
    table_records entries = entries.map projectTableEntry := by
  simpa [table_records] using
    foldl_filter_map (fun _ => true) projectTableEntry entries []

/-- C6: on a standings response with a first table block, a successful
`get_club_tables` output is a permutation of the block's entries each
projected field-for-field from its `overall` sub-object, and is sorted
ascending by position (whatever the source order); when the block has no
entries the call fails with the no-data error. -/
theorem claim_C6 (season_id : String) (b : TableBlock) (rest : List TableBlock) :
    (b.entries = [] →
      get_club_tables season_id ⟨b :: rest⟩ "json" =
        .error ⟨.noData, "No standings entries found for season " ++ season_id⟩) ∧
    (∀ out, get_club_tables season_id ⟨b :: rest⟩ "json" = .ok out →
      out.Perm (b.entries.map projectTableEntry) ∧ List.Sorted posLe out) ∧
    (∀ (e : TableEntry) (v : ℤ),
      ((projectTableEntry e).position = e.position) ∧
      ((projectTableEntry e).club = e.team.name) ∧
      (e.overall.played = some v → (projectTableEntry e).played = v) ∧
      (e.overall.won = some v → (projectTableEntry e).won = v) ∧
      (e.overall.drawn = some v → (projectTableEntry e).drawn = v) ∧
      (e.overall.lost = some v → (projectTableEntry e).lost = v) ∧
      (e.overall.goalsFor = some v → (projectTableEntry e).goalsFor = v) ∧
      (e.overall.goalsAgainst = some v → (projectTableEntry e).goalsAgainst = v) ∧
      (e.overall.goalsDifference = some v →
        (projectTableEntry e).goalDifference = v) ∧
      (e.overall.points = some v → (projectTableEntry e).points = v)) := by
  refine ⟨?_, ?_, ?_⟩
  · intro hemp
    simp [get_club_tables, hemp]
  · intro out hout
    have hne : b.entries.isEmpty = false := by
      by_cases h : b.entries = []
      · simp [get_club_tables, h, format_output, outputFormatValid] at hout
      · simp [List.isEmpty_iff, h]
    simp only [get_club_tables, hne, Bool.false_eq_true, if_false,
      format_output, outputFormatValid] at hout
    have hout' : List.insertionSort posLe (table_records b.entries) = out := by
      simpa using hout
    constructor
    · rw [← hout', table_records_eq]
      exact List.perm_insertionSort posLe _
    · rw [← hout']
      exact List.sorted_insertionSort posLe _
  · intro e v
    refine ⟨rfl, rfl, ?_, ?_, ?_, ?_, ?_, ?_, ?_, ?_⟩ <;>
      (intro h; simp [projectTableEntry, h])

/-- Arsenal standings entry of the spec's tests (position 1). -/
def arsenalEntry : TableEntry :=
  ⟨1, ⟨some "Arsenal", some (.jint 1)⟩,
    ⟨some 10, some 8, some 1, some 1, some 25, some 8, some 17, some 25⟩⟩

/-- Chelsea standings entry of the spec's tests (position 2). -/
def chelseaEntry : TableEntry :=
  ⟨2, ⟨some "Chelsea", some (.jint 4)⟩,
    ⟨some 10, some 7, some 2, some 1, some 22, some 10, some 12, some 23⟩⟩

/-- Witness for C6 on two entries listed in reverse position order: the
output puts position 1 first and is a permutation of the projected input. -/
theorem claim_C6_witness :
    ([projectTableEntry arsenalEntry, projectTableEntry chelseaEntry]).Perm
        ([chelseaEntry, arsenalEntry].map projectTableEntry) ∧
    List.Sorted posLe
      [projectTableEntry arsenalEntry, projectTableEntry chelseaEntry] :=
  (claim_C6 "719" ⟨[chelseaEntry, arsenalEntry]⟩ []).2.1
    [projectTableEntry arsenalEntry, projectTableEntry chelseaEntry] rfl

/-!
## Stat-type catalogs: `constants.py` (`StatTypes`, `get_all_club_stat_types`,
`get_all_player_stat_types`, `validate_stat_type`)
-/

/-- `StatTypes.CLUB_STATS`, in dictionary insertion order. -/
def CLUB_STATS : List (String × List String) :=
  [("General",
    ["wins", "losses", "draws", "goals", "total_red_card", "total_yel_card"]),
   ("Attack",
    ["total_scoring_att", "ontarget_scoring_att", "hit_woodwork", "att_hd_goal",
     "att_pen_goal", "att_freekick_goal", "att_ibox_goal", "att_obox_goal",
     "goal_fastbreak", "total_offside"]),
   ("Defence",
    ["goals_conceded", "clean_sheet", "saves", "outfielder_block",
     "interceptions", "total_tackle", "penalty_save",
     "last_man_tackle", "total_clearance", "Headed clearances",
     "clearance_off_line", "own_goals", "penalty_conceded",
     "pen_goals_conceded", "dispossessed", "total_high_claim", "punches"]),
   ("Teamplay",
    ["total_pass", "total_through_ball", "touches", "total_long_balls",
     "backward_pass", "total_cross", "corner_taken"])]

/-- `StatTypes.PLAYER_STATS`, in dictionary insertion order (the
`"oal_fastbreak"` typo is in the source). -/
def PLAYER_STATS : List (String × List String) :=
  [("General",
    ["appearances", "wins", "losses", "draws", "minsPlayed"]),
   ("Attack",
    ["goals", "goal_assist", "total_scoring_att", "ontarget_scoring_att",
     "hit_woodwork", "big_chance_created", "big_chance_missed",
     "att_pen_goal", "att_freekick_goal", "att_hd_goal", "att_ibox_goal",
     "att_obox_goal", "total_offside", "oal_fastbreak", "corner_taken"]),
   ("Teamplay",
    ["total_pass", "pass_success", "total_cross", "cross_accuracy",
     "total_through_ball", "total_long_balls", "touches", "key_passes"]),
   ("Defence",
    ["clean_sheet", "goals_conceded", "tackle_success", "last_man_tackle",
     "blocked_scoring_att", "interception", "clearance_off_line",
     "recoveries", "duel_won", "duel_lost", "aerial_won", "aerial_lost",
     "own_goals", "penalty_conceded"]),
   ("Discipline",
    ["yellow_card", "red_card", "fouls", "offside"]),
   ("Goalkeeping",
    ["saves", "penalty_save", "punches", "high_claim", "catch",
     "sweeper_clearance", "throw_out", "goal_kicks"])]

/-- `get_all_club_stat_types`: flatten the categories in order. -/
def get_all_club_stat_types : List String :=
  CLUB_STATS.foldl (fun acc c => acc ++ c.2) []

/-- `get_all_player_stat_types`: flatten the categories in order. -/
def get_all_player_stat_types : List String :=
  PLAYER_STATS.foldl (fun acc c => acc ++ c.2) []

/-- Python `str.lower()`, character-wise (the catalogs and category names are
ASCII, where this agrees with Python). -/
def pyLower (s : String) : String :=
  String.mk (s.data.map Char.toLower)

/-- `validate_stat_type` from `constants.py`. -/
def validate_stat_type (stat_type : String) (stat_category : String) : Bool :=
  if pyLower stat_category == "club" then
    get_all_club_stat_types.contains stat_type
  else if pyLower stat_category == "player" then
    get_all_player_stat_types.contains stat_type
  else false

/-- Message of the invalid-stat-type failure, naming example valid keys. -/
def invalidStatMsg (stat_type : String) (valid_stats : List String) : String :=
  "Invalid statistic type \x27" ++ stat_type ++
    "\x27. Valid examples include: " ++ String.intercalate ", " valid_stats

/-!
## Ranking projections: `EPLAPI.get_club_rankings` (`api.py` lines 273-324)
and `EPLAPI.get_player_rankings` (lines 378-440)

Both are modelled as returning the list of endpoints requested over HTTP
(first component) together with the outcome, so that "no request issued" is
expressible.  The `stats.content` array is passed directly (both missing
`"stats"` and missing `"content"` default to the empty list in the code).
-/

/-- One item of a club-rankings `stats.content` array. -/
structure ClubRankItem where
  rank : Option ℤ
  ownerName : Option String
  value : Option JNum
deriving DecidableEq

/-- An output record of `get_club_rankings`. -/
structure RankRecord where
  rank : Option ℤ
  club : Option String
  stat : Option JNum
deriving DecidableEq

/-- `EPLAPI.get_club_rankings`.  `ValueError`s propagate unchanged through its
`except (KeyError, TypeError)` clause. -/
def get_club_rankings (stat_type season_id output : String)
    (resp : List ClubRankItem) :
    List String × Except PyErr (List RankRecord) :=
  if validate_stat_type stat_type "club" = false then
    ([], .error ⟨.invalidArgument,
      invalidStatMsg stat_type (get_all_club_stat_types.take 10)⟩)
  else
    let data := resp.foldl
      (fun acc item => acc ++ [(⟨item.rank, item.ownerName, item.value⟩ : RankRecord)])
      []
    (["stats/ranked/teams/" ++ stat_type],
      if data.isEmpty then
        .error ⟨.noData, "No ranking data found for statistic \x27" ++ stat_type ++
          "\x27 in season \x27" ++ season_id ++ "\x27"⟩
      else format_output data output)

/-- One item of a player-rankings `stats.content` array; the nested
`owner.name.display`, `owner.currentTeam.name` and `owner.nationalTeam.country`
chains are collapsed into their resulting optional strings. -/
structure PlayerRankItem where
  rank : Option ℤ
  ownerDisplayName : Option String
  ownerTeamName : Option String
  ownerCountry : Option String
  value : Option JNum
deriving DecidableEq

/-- An output record of `get_player_rankings`; the `nationality` field is
`some _` exactly when the nationality column is configured in. -/
structure PlayerRankRecord where
  rank : Option ℤ
  player : Option String
  club : Option String
  stat : Option JNum
  nationality : Option (Option String)
deriving DecidableEq

/-- `EPLAPI.get_player_rankings`; `include_nationality` is the configuration
flag. -/
def get_player_rankings (include_nationality : Bool)
    (stat_type season_id output : String) (resp : List PlayerRankItem) :
    List String × Except PyErr (List PlayerRankRecord) :=
  if validate_stat_type stat_type "player" = false then
    ([], .error ⟨.invalidArgument,
      invalidStatMsg stat_type (get_all_player_stat_types.take 10)⟩)
  else
    let data := resp.foldl
      (fun acc item => acc ++
        [(⟨item.rank, item.ownerDisplayName, item.ownerTeamName, item.value,
          if include_nationality then some item.ownerCountry else none⟩ :
            PlayerRankRecord)])
      []
    (["stats/ranked/players/" ++ stat_type],
      if data.isEmpty then
        .error ⟨.noData, "No ranking data found for statistic \x27" ++ stat_type ++
          "\x27 in season \x27" ++ season_id ++ "\x27"⟩
      else format_output data output)

/-- C2: for a stat key absent from the club catalog, `get_club_rankings`
issues no HTTP request and fails with the invalid-argument error whose
message names the first ten valid club keys; for a stat key absent from the
player catalog, `get_player_rankings` does likewise with the player catalog.
Each conjunct assumes absence only from its own category's catalog, so the
theorem covers keys that are valid for the other category (for example
`goal_assist` on the club side).  The last two conjuncts list the named
example keys concretely. -/
theorem claim_C2 (stat_type season_id output : String)
    (resp_c : List ClubRankItem) (resp_p : List PlayerRankItem)
    (include_nationality : Bool) :
    (get_all_club_stat_types.contains stat_type = false →
      get_club_rankings stat_type season_id output resp_c =
        ([], .error ⟨.invalidArgument,
          invalidStatMsg stat_type (get_all_club_stat_types.take 10)⟩)) ∧
    (get_all_player_stat_types.contains stat_type = false →
      get_player_rankings include_nationality stat_type season_id output resp_p =
        ([], .error ⟨.invalidArgument,
          invalidStatMsg stat_type (get_all_player_stat_types.take 10)⟩)) ∧
    get_all_club_stat_types.take 10 =
      ["wins", "losses", "draws", "goals", "total_red_card", "total_yel_card",
        "total_scoring_att", "ontarget_scoring_att", "hit_woodwork",
        "att_hd_goal"] ∧
    get_all_player_stat_types.take 10 =
      ["appearances", "wins", "losses", "draws", "minsPlayed", "goals",
        "goal_assist", "total_scoring_att", "ontarget_scoring_att",
        "hit_woodwork"] := by
  have hcc : (pyLower "club" == "club") = true := by decide
  have hpc : (pyLower "player" == "club") = false := by decide
  have hpp : (pyLower "player" == "player") = true := by decide
  refine ⟨?_, ?_, rfl, rfl⟩
  · intro hclub
    have hclub' : stat_type ∉ get_all_club_stat_types := by simpa using hclub
    have hvc : validate_stat_type stat_type "club" = false := by
      simp [validate_stat_type, hcc, hclub']
    simp [get_club_rankings, hvc]
  · intro hplayer
    have hplayer' : stat_type ∉ get_all_player_stat_types := by
      simpa using hplayer
    have hvp : validate_stat_type stat_type "player" = false := by
      simp [validate_stat_type, hpc, hpp, hplayer']
    simp [get_player_rankings, hvp]

/-- Witness for C2 at category-specific invalid keys: `"goal_assist"` is a
valid player key but absent from the club catalog, and `"total_tackle"` is a
valid club key but absent from the player catalog. -/
theorem claim_C2_witness :
    get_club_rankings "goal_assist" "719" "json" [] =
      ([], .error ⟨.invalidArgument,
        invalidStatMsg "goal_assist" (get_all_club_stat_types.take 10)⟩) ∧
    get_player_rankings false "total_tackle" "719" "json" [] =
      ([], .error ⟨.invalidArgument,
        invalidStatMsg "total_tackle" (get_all_player_stat_types.take 10)⟩) := by
  exact ⟨(claim_C2 "goal_assist" "719" "json" [] [] false).1 (by decide),
    (claim_C2 "total_tackle" "719" "json" [] [] false).2.1 (by decide)⟩

/-!
## Player-list projection: `EPLAPI.get_player_list` (`api.py` lines 443-543)

The paginated `players` endpoint is modelled by the sequence of `content`
arrays it returns for pages 0, 1, 2, ... (`pages`); the loop stops at the
first empty page (after the supplied list the upstream is taken to answer
with empty pages).  `club_info_name` models the best-effort
`get_club_info` lookup used only to enrich the no-players error message:
`none` when that secondary request fails, `some x` when it succeeds with
`response.get("name", club_id) = x`.
-/

/-- The `currentTeam` sub-object of a player entry.  A present-but-empty
dictionary is falsy in `if team and ...`, like an absent one, and is modelled
as `none` at the `PlayerEntry` level. -/
structure TeamRef where
  id : Option JNum
  name : Option String
deriving DecidableEq

/-- One player of a `content` page.  `id` and `displayName` are mandatory
(`player["id"]`, `player["name"]["display"]`). -/
structure PlayerEntry where
  id : JNum
  displayName : String
  position : Option String
  currentTeam : Option TeamRef
  country : Option String
deriving DecidableEq

/-- An output record of `get_player_list`; `nationality` is `some _` exactly
when the nationality column is configured in. -/
structure PlayerRecord where
  id : String
  name : String
  position : Option String
  currentTeam : Option String
  nationality : Option (Option String)
deriving DecidableEq

/-- `team_id = str(int(team.get("id"))) if team and team.get("id") is not None
else None`. -/
def resolveTeamId (p : PlayerEntry) : Option String :=
  match p.currentTeam with
  | some t =>
    match t.id with
    | some j => some (canonId j)
    | none => none
  | none => none

/-- The per-player filtering logic of the pagination loop. -/
def keepPlayer (filter_first_team_only : Bool) (club_id : Option String)
    (valid_team_ids : List String) (p : PlayerEntry) : Bool :=
  match club_id with
  | some cid => resolveTeamId p == some cid
  | none =>
    if filter_first_team_only then
      match resolveTeamId p with
      | some tid => valid_team_ids.contains tid
      | none => false
    else true

/-- Projection of one kept player into an output record. -/
def projectPlayer (include_nationality : Bool) (p : PlayerEntry) : PlayerRecord :=
  ⟨canonId p.id, p.displayName, p.position,
    (match p.currentTeam with | some t => t.name | none => none),
    if include_nationality then some p.country else none⟩

/-- The `while True` pagination loop: accumulate each page's kept players,
stopping at the first empty `content`. -/
def collect_pages (filter_first_team_only include_nationality : Bool)
    (club_id : Option String) (valid_team_ids : List String) :
    List (List PlayerEntry) → List PlayerRecord
  | [] => []
  | page :: rest =>
    if page.isEmpty then []
    else
      page.foldl
        (fun acc p =>
          if keepPlayer filter_first_team_only club_id valid_team_ids p then
            acc ++ [projectPlayer include_nationality p]
          else acc)
        [] ++
      collect_pages filter_first_team_only include_nationality club_id
        valid_team_ids rest

/-- Message of the no-players failure with a club filter. -/
def noPlayersMsgClub (club_name cid season_id : String) : String :=
  "No players found for club \x27" ++ club_name ++ "\x27 (ID: " ++ cid ++
    ") in season " ++ season_id

/-- Message of the no-players failure without a club filter. -/
def noPlayersMsg (season_id : String) : String :=
  "No players found for season " ++ season_id

/-- Message of the invalid-club-id failure. -/
def clubNotFoundMsg (cid : String) : String :=
  "Club ID \x27" ++ cid ++
    "\x27 not found. Use get_club_ids() or get_club_tables() to find valid club IDs."

/-- The part of `get_player_list` after club-id validation: run the loop,
raise no-data when nothing matched (enriching the message via the
best-effort club lookup), otherwise format. -/
def player_list_from_pages (filter_first_team_only include_nationality : Bool)
    (club_id : Option String) (valid_team_ids : List String)
    (season_id : String) (pages : List (List PlayerEntry))
    (club_info_name : Option (Option String)) (output : String) :
    Except PyErr (List PlayerRecord) :=
  let players := collect_pages filter_first_team_only include_nationality
    club_id valid_team_ids pages
  if players.isEmpty then
    match club_id with
    | some cid =>
      let club_name :=
        match club_info_name with
        | none => "Unknown"
        | some none => cid
        | some (some n) => n
      .error ⟨.noData, noPlayersMsgClub club_name cid season_id⟩
    | none => .error ⟨.noData, noPlayersMsg season_id⟩
  else format_output players output

/-- Body of `get_player_list` (the `try` block). -/
def get_player_list_inner (filter_first_team_only include_nationality : Bool)
    (season_id : String) (clubs_data : List ClubEntry)
    (pages : List (List PlayerEntry)) (club_info_name : Option (Option String))
    (club_id : Option String) (output : String) :
    Except PyErr (List PlayerRecord) :=
  match get_club_ids season_id clubs_data "json" with
  | .error e => .error e
  | .ok club_ids_data =>
    let valid_ids := club_ids_data.map (fun c => c.teamId)
    match club_id with
    | some cid =>
      if valid_ids.contains cid then
        player_list_from_pages filter_first_team_only include_nationality
          (some cid) [cid] season_id pages club_info_name output
      else .error ⟨.notFound, clubNotFoundMsg cid⟩
    | none =>
      player_list_from_pages filter_first_team_only include_nationality
        none valid_ids season_id pages club_info_name output

/-- `EPLAPI.get_player_list`: the body wrapped by the message-filtering
`except` clause. -/
def get_player_list (filter_first_team_only include_nationality : Bool)
    (season_id : String) (clubs_data : List ClubEntry)
    (pages : List (List PlayerEntry)) (club_info_name : Option (Option String))
    (club_id : Option String) (output : String) :
    Except PyErr (List PlayerRecord) :=
  match get_player_list_inner filter_first_team_only include_nationality
      season_id clubs_data pages club_info_name club_id output with
  | .ok v => .ok v
  | .error e =>
    if pyIn "not found" e.msg || pyIn "No players found" e.msg then .error e
    else .error ⟨e.kind, "Error processing player list: " ++ e.msg⟩

/-- The pagination loop is: take pages up to the first empty one, join them,
filter, project. -/
theorem collect_pages_eq (filter_first_team_only include_nationality : Bool)
    (club_id : Option String) (valid_team_ids : List String)
    (pages : List (List PlayerEntry)) :
    collect_pages filter_first_team_only include_nationality club_id
        valid_team_ids pages =
      (((pages.takeWhile (fun pg => !pg.isEmpty)).flatten).filter
          (keepPlayer filter_first_team_only club_id valid_team_ids)).map
        (projectPlayer include_nationality) := by
  induction pages with
  | nil => simp [collect_pages]
  | cons page rest ih =>
    by_cases hp : page.isEmpty = true
    · simp [collect_pages, hp, List.takeWhile_cons]
    · have hp' : page.isEmpty = false := by
        cases hval : page.isEmpty
        · rfl
        · exact absurd hval hp
      rw [collect_pages]
      rw [foldl_filter_map
        (keepPlayer filter_first_team_only club_id valid_team_ids)
        (projectPlayer include_nationality) page []]
      simp [hp', List.takeWhile_cons, ih]

/-- The valid-club-id set precomputed from the season's club list. -/
def valid_first_team_ids (clubs_data : List ClubEntry) : List String :=
  ((clubs_data.filter (fun t => t.teamType == some "FIRST")).map projectClub).map
    (fun c => c.teamId)

/-- Declarative form of the pagination loop's result. -/
def kept_players (filter_first_team_only include_nationality : Bool)
    (club_id : Option String) (valid_team_ids : List String)
    (pages : List (List PlayerEntry)) : List PlayerRecord :=
  (((pages.takeWhile (fun pg => !pg.isEmpty)).flatten).filter
      (keepPlayer filter_first_team_only club_id valid_team_ids)).map
    (projectPlayer include_nationality)

theorem noPlayers_keep (season_id : String) :
    pyIn "No players found" (noPlayersMsg season_id) = true := by
  rw [noPlayersMsg]
  exact pyIn_of_pre (by decide) _

theorem noPlayersClub_keep (club_name cid season_id : String) :
    pyIn "No players found" (noPlayersMsgClub club_name cid season_id) = true := by
  have h : noPlayersMsgClub club_name cid season_id =
      "No players found for club \x27" ++
        (club_name ++ ("\x27 (ID: " ++ (cid ++ (") in season " ++ season_id)))) := by
    simp [noPlayersMsgClub, String.append_assoc]
  rw [h]
  exact pyIn_of_pre (by decide) _

/-- C5 (amended): `get_player_list` paginates, accumulating pages until the
first empty `content`; WHEN THE FIRST-TEAM-ONLY CONFIGURATION FLAG IS ENABLED
and no club filter is given, it keeps a player exactly when the player's
resolved current-club id belongs to the valid-club-id set precomputed from
the season's club list (with the flag disabled every listed player is kept —
see the counterexample); when a (valid) specific `club_id` is given it keeps
a player exactly when the resolved id equals that club id; and it fails with
the no-data error when no player matched. -/
theorem claim_C5 (include_nationality : Bool) (season_id : String)
    (clubs_data : List ClubEntry) (pages : List (List PlayerEntry))
    (club_info_name : Option (Option String))
    (hclubs : ¬ clubs_data.filter (fun t => t.teamType == some "FIRST") = []) :
    (¬ kept_players true include_nationality none (valid_first_team_ids clubs_data)
        pages = [] →
      get_player_list true include_nationality season_id clubs_data pages
          club_info_name none "json" =
        .ok (kept_players true include_nationality none
          (valid_first_team_ids clubs_data) pages)) ∧
    (kept_players true include_nationality none (valid_first_team_ids clubs_data)
        pages = [] →
      get_player_list true include_nationality season_id clubs_data pages
          club_info_name none "json" =
        .error ⟨.noData, noPlayersMsg season_id⟩) ∧
    (∀ p, keepPlayer true none (valid_first_team_ids clubs_data) p = true ↔
      ∃ tid, resolveTeamId p = some tid ∧ tid ∈ valid_first_team_ids clubs_data) ∧
    (∀ (filter_first_team_only : Bool) (cid : String),
      (valid_first_team_ids clubs_data).contains cid = true →
      (¬ kept_players filter_first_team_only include_nationality (some cid) [cid]
          pages = [] →
        get_player_list filter_first_team_only include_nationality season_id
            clubs_data pages club_info_name (some cid) "json" =
          .ok (kept_players filter_first_team_only include_nationality (some cid)
            [cid] pages)) ∧
      (∀ p, keepPlayer filter_first_team_only (some cid) [cid] p = true ↔
        resolveTeamId p = some cid)) ∧
    (∀ p, keepPlayer false none (valid_first_team_ids clubs_data) p = true) := by
  have hok := get_club_ids_ok season_id clubs_data hclubs
  have hvdef : ((clubs_data.filter (fun t => t.teamType == some "FIRST")).map
      projectClub).map (fun c => c.teamId) = valid_first_team_ids clubs_data := rfl
  refine ⟨?_, ?_, ?_, ?_, ?_⟩
  · intro hne
    obtain ⟨r, rs, hk⟩ : ∃ r rs, kept_players true include_nationality none
        (valid_first_team_ids clubs_data) pages = r :: rs := by
      cases hkp : kept_players true include_nationality none
          (valid_first_team_ids clubs_data) pages with
      | nil => exact absurd hkp hne
      | cons a l => exact ⟨a, l, rfl⟩
    have hcoll : collect_pages true include_nationality none
        (valid_first_team_ids clubs_data) pages = r :: rs := by
      rw [collect_pages_eq]
      exact hk
    simp [get_player_list, get_player_list_inner, hok, player_list_from_pages,
      hvdef, hcoll, hk, format_output, outputFormatValid]
  · intro hempk
    have hcoll : collect_pages true include_nationality none
        (valid_first_team_ids clubs_data) pages = [] := by
      rw [collect_pages_eq]
      exact hempk
    simp [get_player_list, get_player_list_inner, hok, player_list_from_pages,
      hvdef, hcoll, noPlayers_keep]
  · intro p
    cases h : resolveTeamId p with
    | none => simp [keepPlayer, h]
    | some tid => simp [keepPlayer, h]
  · intro ffto cid hcid
    have hmem : cid ∈ valid_first_team_ids clubs_data := by simpa using hcid
    constructor
    · intro hne
      obtain ⟨r, rs, hk⟩ : ∃ r rs, kept_players ffto include_nationality
          (some cid) [cid] pages = r :: rs := by
        cases hkp : kept_players ffto include_nationality (some cid) [cid]
            pages with
        | nil => exact absurd hkp hne
        | cons a l => exact ⟨a, l, rfl⟩
      have hcoll : collect_pages ffto include_nationality (some cid) [cid]
          pages = r :: rs := by
        rw [collect_pages_eq]
        exact hk
      simp [get_player_list, get_player_list_inner, hok, player_list_from_pages,
        hvdef, hmem, hcoll, hk, format_output, outputFormatValid]
    · intro p
      simp [keepPlayer]
  · intro p
    simp [keepPlayer]

/-- A player kept although his club id 99 is outside the valid set. -/
def outsiderPlayer : PlayerEntry :=
  ⟨.jint 50, "X Player", some "Forward",
    some ⟨some (.jint 99), some "Elsewhere FC"⟩, none⟩

/-- A one-club season (valid ids: `["1"]`). -/
def c5Clubs : List ClubEntry :=
  [⟨some "FIRST", some "Arsenal", .jint 1⟩]

/-- Counterexample to C5 as frozen: with the first-team-only configuration
flag disabled and no club filter, a player whose resolved current-club id
(`"99"`) is NOT in the precomputed valid-club-id set (`["1"]`) is still kept,
so membership in the valid set does not characterise the kept players. -/
theorem claim_C5_counterexample :
    valid_first_team_ids c5Clubs = ["1"] ∧
    resolveTeamId outsiderPlayer = some "99" ∧
    ("99" : String) ∉ ["1"] ∧
    get_player_list false false "719" c5Clubs [[outsiderPlayer]] none none
        "json" =
      .ok [⟨"50", "X Player", some "Forward", some "Elsewhere FC", none⟩] := by
  refine ⟨rfl, rfl, by decide, rfl⟩

/-- Two-club season for the C5 witness (valid ids: `["1", "10"]`). -/
def c5ClubsW : List ClubEntry :=
  [⟨some "FIRST", some "Arsenal", .jint 1⟩,
    ⟨some "FIRST", some "Liverpool", .jint 10⟩]

/-- Haaland entry of the mocked players page (club 11, not in the season). -/
def haalandEntry : PlayerEntry :=
  ⟨.jint 65970, "Erling Haaland", some "Forward",
    some ⟨some (.jint 11), some "Manchester City"⟩, some "Norway"⟩

/-- Salah entry of the mocked players page (club 10, in the season). -/
def salahEntry : PlayerEntry :=
  ⟨.jint 5178, "Mohamed Salah", some "Forward",
    some ⟨some (.jint 10), some "Liverpool"⟩, some "Egypt"⟩

/-- Witness for C5 with the first-team filter enabled: the club-11 player is
dropped, the club-10 player kept. -/
theorem claim_C5_witness :
    get_player_list true false "719" c5ClubsW [[haalandEntry, salahEntry]]
        none none "json" =
      .ok (kept_players true false none (valid_first_team_ids c5ClubsW)
        [[haalandEntry, salahEntry]]) ∧
    kept_players true false none (valid_first_team_ids c5ClubsW)
        [[haalandEntry, salahEntry]] =
      [⟨"5178", "Mohamed Salah", some "Forward", some "Liverpool", none⟩] := by
  refine ⟨(claim_C5 false "719" c5ClubsW [[haalandEntry, salahEntry]] none
    (by decide)).1 (by decide), rfl⟩

/-!
## Canonical identifier strings (claim C10)
-/

theorem canonId_value_eq {a b : JNum} (h : a.toRat = b.toRat) :
    canonId a = canonId b := by
  have htr : ∀ n : ℤ, pyTrunc ((n : ℚ)) = n := by
    intro n
    rw [pyTrunc, Rat.num_intCast, Rat.den_intCast]
    simp [Int.tdiv_one]
  cases a with
  | jint m =>
    cases b with
    | jint n =>
      have : m = n := by
        have := h
        simp [JNum.toRat] at this
        exact_mod_cast this
      rw [this]
    | jfloat q =>
      have hq : (m : ℚ) = q := by simpa [JNum.toRat] using h
      have : pyTrunc q = m := by rw [← hq, htr]
      simp [canonId, JNum.pyInt, this]
  | jfloat q =>
    cases b with
    | jint n =>
      have hq : q = (n : ℚ) := by simpa [JNum.toRat] using h
      have : pyTrunc q = n := by rw [hq, htr]
      simp [canonId, JNum.pyInt, this]
    | jfloat q' =>
      have : q = q' := by simpa [JNum.toRat] using h
      rw [this]

theorem get_season_id_ok_mem (seasons : List SeasonEntry) (label : Option String)
    (v : String) (h : get_season_id ⟨some seasons⟩ label = .ok v) :
    ∃ e ∈ seasons, v = canonId e.id := by
  have hlatest : ∀ w : String, latest_season_id seasons = .ok w →
      ∃ e ∈ seasons, w = canonId e.id := by
    intro w hw
    cases seasons with
    | nil => simp [latest_season_id] at hw
    | cons s rest =>
      refine ⟨pyMaxBy (fun e => e.id.toRat) s rest, pyMaxBy_mem _ s rest, ?_⟩
      simpa [latest_season_id] using hw.symm
  cases hin : get_season_id_inner ⟨some seasons⟩ label with
  | error e =>
    rw [get_season_id, hin] at h
    by_cases hk : seasonKeep e.msg = true <;> simp [hk] at h
  | ok w =>
    rw [get_season_id, hin] at h
    have hwv : w = v := by simpa using h
    subst hwv
    cases label with
    | none =>
      simp only [get_season_id_inner] at hin
      exact hlatest w hin
    | some l =>
      simp only [get_season_id_inner] at hin
      by_cases hl : (l == "") = true
      · rw [if_pos hl] at hin
        exact hlatest w hin
      · rw [if_neg hl] at hin
        cases hf : seasons.find? (fun s => s.label == some l) with
        | none => rw [hf] at hin; simp at hin
        | some s =>
          rw [hf] at hin
          refine ⟨s, List.mem_of_find?_eq_some hf, ?_⟩
          simpa using hin.symm

theorem get_club_ids_ok_shape (season_id : String) (clubs_data : List ClubEntry)
    (output : String) (out : List ClubRecord)
    (h : get_club_ids season_id clubs_data output = .ok out) :
    out = (clubs_data.filter (fun t => t.teamType == some "FIRST")).map
      projectClub := by
  cases hin : get_club_ids_inner season_id clubs_data output with
  | error e =>
    rw [get_club_ids, hin] at h
    by_cases hk : pyIn "No clubs found" e.msg = true <;> simp [hk] at h
  | ok w =>
    rw [get_club_ids, hin] at h
    have hw : w = out := by simpa using h
    subst hw
    simp only [get_club_ids_inner] at hin
    by_cases he : (first_team_records clubs_data).isEmpty = true
    · rw [if_pos he] at hin
      simp at hin
    · rw [if_neg he] at hin
      simp only [format_output] at hin
      by_cases hv : outputFormatValid output = true
      · rw [if_pos hv] at hin
        have : first_team_records clubs_data = w := by simpa using hin
        rw [← this, first_team_records_eq]
      · rw [if_neg hv] at hin
        simp at hin

theorem player_list_from_pages_ok (filter_first_team_only include_nationality : Bool)
    (club_id : Option String) (valid_team_ids : List String) (season_id : String)
    (pages : List (List PlayerEntry)) (club_info_name : Option (Option String))
    (output : String) (w : List PlayerRecord)
    (h : player_list_from_pages filter_first_team_only include_nationality club_id
      valid_team_ids season_id pages club_info_name output = .ok w) :
    w = collect_pages filter_first_team_only include_nationality club_id
      valid_team_ids pages := by
  simp only [player_list_from_pages] at h
  by_cases he : (collect_pages filter_first_team_only include_nationality club_id
      valid_team_ids pages).isEmpty = true
  · rw [if_pos he] at h
    cases club_id <;> simp at h
  · rw [if_neg he] at h
    simp only [format_output] at h
    by_cases hv : outputFormatValid output = true
    · rw [if_pos hv] at h
      have hcw : collect_pages filter_first_team_only include_nationality club_id
          valid_team_ids pages = w := by simpa using h
      exact hcw.symm
    · rw [if_neg hv] at h
      simp at h

theorem get_player_list_ok_src (filter_first_team_only include_nationality : Bool)
    (season_id : String) (clubs_data : List ClubEntry)
    (pages : List (List PlayerEntry)) (club_info_name : Option (Option String))
    (club_id : Option String) (output : String) (out : List PlayerRecord)
    (h : get_player_list filter_first_team_only include_nationality season_id
      clubs_data pages club_info_name club_id output = .ok out) :
    ∀ rec ∈ out, ∃ p ∈ pages.flatten,
      rec = projectPlayer include_nationality p := by
  suffices hsuff : ∃ cid valid, out = collect_pages filter_first_team_only
      include_nationality cid valid pages by
    obtain ⟨cid, valid, rfl⟩ := hsuff
    intro rec hrec
    rw [collect_pages_eq] at hrec
    obtain ⟨p, hp, rfl⟩ := List.mem_map.mp hrec
    have hp2 : p ∈ (pages.takeWhile (fun pg => !pg.isEmpty)).flatten :=
      List.mem_of_mem_filter hp
    obtain ⟨pg, hpg, hppg⟩ := List.mem_flatten.mp hp2
    have hpg2 : pg ∈ pages := (List.takeWhile_prefix _).sublist.subset hpg
    exact ⟨p, List.mem_flatten.mpr ⟨pg, hpg2, hppg⟩, rfl⟩
  cases hin : get_player_list_inner filter_first_team_only include_nationality
      season_id clubs_data pages club_info_name club_id output with
  | error e =>
    rw [get_player_list, hin] at h
    by_cases hk : (pyIn "not found" e.msg || pyIn "No players found" e.msg) = true <;>
      simp [hk] at h
  | ok w =>
    rw [get_player_list, hin] at h
    have hw : w = out := by simpa using h
    subst hw
    cases hc : get_club_ids season_id clubs_data "json" with
    | error e =>
      simp only [get_player_list_inner, hc] at hin
      simp at hin
    | ok cdata =>
      cases club_id with
      | none =>
        simp only [get_player_list_inner, hc] at hin
        exact ⟨none, cdata.map (fun c => c.teamId),
          player_list_from_pages_ok _ _ _ _ _ _ _ _ _ hin⟩
      | some cid =>
        simp only [get_player_list_inner, hc] at hin
        by_cases hcid : (cdata.map (fun c => c.teamId)).contains cid = true
        · rw [if_pos hcid] at hin
          exact ⟨some cid, [cid],
            player_list_from_pages_ok _ _ _ _ _ _ _ _ _ hin⟩
        · rw [if_neg hcid] at hin
          simp at hin

/-- C10: `str(int(raw))` canonicalisation.  Part 1: the canonical id string
depends only on the numeric value of the wire id, so numerically equal ids of
different wire representations (integer vs float) yield the same string.
Parts 2-4: every identifier returned by `get_season_id`, every Team ID in
`get_club_ids` output, and every ID in `get_player_list` output is the
canonical decimal string of the integer value of the corresponding upstream
id. -/
theorem claim_C10 :
    (∀ a b : JNum, a.toRat = b.toRat → canonId a = canonId b) ∧
    (∀ (seasons : List SeasonEntry) (label : Option String) (v : String),
      get_season_id ⟨some seasons⟩ label = .ok v →
      ∃ e ∈ seasons, v = canonId e.id) ∧
    (∀ (season_id output : String) (clubs_data : List ClubEntry)
        (out : List ClubRecord),
      get_club_ids season_id clubs_data output = .ok out →
      ∀ r ∈ out, ∃ t ∈ clubs_data, r.teamId = canonId t.id) ∧
    (∀ (filter_first_team_only include_nationality : Bool) (season_id : String)
        (clubs_data : List ClubEntry) (pages : List (List PlayerEntry))
        (club_info_name : Option (Option String)) (club_id : Option String)
        (output : String) (out : List PlayerRecord),
      get_player_list filter_first_team_only include_nationality season_id
        clubs_data pages club_info_name club_id output = .ok out →
      ∀ rec ∈ out, ∃ p ∈ pages.flatten, rec.id = canonId p.id) := by
  refine ⟨fun a b h => canonId_value_eq h, ?_, ?_, ?_⟩
  · exact fun seasons label v h => get_season_id_ok_mem seasons label v h
  · intro season_id output clubs_data out h r hr
    rw [get_club_ids_ok_shape season_id clubs_data output out h] at hr
    obtain ⟨t, ht, rfl⟩ := List.mem_map.mp hr
    exact ⟨t, List.mem_of_mem_filter ht, rfl⟩
  · intro ffto incN season_id clubs_data pages cinfo club_id output out h rec hrec
    obtain ⟨p, hp, rfl⟩ := get_player_list_ok_src ffto incN season_id clubs_data
      pages cinfo club_id output out h rec hrec
    exact ⟨p, hp, rfl⟩

/-- Witness for C10: the integer wire id `719` and the float wire id `719.0`
canonicalise to the same string, `"719"`. -/
theorem claim_C10_witness :
    canonId (JNum.jint 719) = canonId (JNum.jfloat (719 : ℚ)) ∧
    canonId (JNum.jint 719) = "719" := by
  refine ⟨claim_C10.1 (JNum.jint 719) (JNum.jfloat (719 : ℚ)) ?_, rfl⟩
  simp [JNum.toRat]

/-!
## Multi-player comparison: `EPLAPI.get_player_comparison`
(`api.py` lines 623-795)

The `self.get_player_list(season_id, "json")` call is passed in as its
outcome (`players_list`); `stats_oracle` maps a player id to the `stats`
array of `get_player_stats` (the per-player stats fetch is taken to succeed,
so a per-player failure is exactly a resolution failure).  Stat values are
modelled as exact rationals, abstracting Python int/float arithmetic. -/

/-- Python `s.replace(" ", "")`. -/
def removeSpaces (s : String) : String :=
  String.mk (s.data.filter (fun c => !(c == ' ')))

/-- Dictionary lookup on an insertion-ordered association list where later
bindings overwrite earlier ones: the LAST binding wins. -/
def pyDictFind (m : List (String × α)) (k : String) : Option α :=
  (m.reverse.find? (fun kv => kv.1 == k)).map (fun kv => kv.2)

/-- Player info captured into `players_info_map`. -/
structure PInfo where
  id : String
  name : String
  position : Option String
  team : Option String
deriving DecidableEq

/-- Info record built from one `get_player_list` record. -/
def infoOfRecord (p : PlayerRecord) : PInfo :=
  ⟨p.id, p.name, p.position, p.currentTeam⟩

/-- The name variations under which one player is registered in
`players_info_map`. -/
def nameVariations (name : String) : List String :=
  [name, pyLower name, pyLower (removeSpaces name)]

/-- `players_info_map`: bindings in insertion order (later players overwrite
earlier ones on colliding variations, matching `pyDictFind`). -/
def players_info_map (all_players : List PlayerRecord) : List (String × PInfo) :=
  all_players.foldl
    (fun m p => (nameVariations p.name).foldl
      (fun m v => m ++ [(v, infoOfRecord p)]) m)
    []

/-- Resolution of one requested name: the three variations against the map in
order, then the case-folded substring fallback over the list, first match. -/
def resolve_player (all_players : List PlayerRecord) (player_name : String) :
    Option PInfo :=
  let m := players_info_map all_players
  let search_variations :=
    [player_name, pyLower player_name, pyLower (removeSpaces player_name)]
  match search_variations.findSome? (fun v => pyDictFind m v) with
  | some info => some info
  | none =>
    (all_players.find?
      (fun lp => pyIn (pyLower player_name) (pyLower lp.name))).map infoOfRecord

/-- Message of one per-player resolution failure. -/
def playerNotFoundMsg (name season_id : String) : String :=
  "Player \x27" ++ name ++ "\x27 not found in season " ++ season_id

/-- The requested names that resolve, each with its info, in request order. -/
def resolved_pairs (all_players : List PlayerRecord)
    (player_names : List String) : List (String × PInfo) :=
  player_names.filterMap
    (fun n => (resolve_player all_players n).map (fun info => (n, info)))

/-- The requested names that do not resolve, with their failure reasons, in
request order. -/
def failed_pairs (all_players : List PlayerRecord) (player_names : List String)
    (season_id : String) : List (String × String) :=
  (player_names.filter (fun n => (resolve_player all_players n).isNone)).map
    (fun n => (n, playerNotFoundMsg n season_id))

/-- The requested statistics of one resolved player, missing stats as 0. -/
def player_comparison_stats (stats_to_compare : List String)
    (stats_list : List (String × ℚ)) : List (String × ℚ) :=
  stats_to_compare.map (fun s => (s, (pyDictFind stats_list s).getD 0))

/-- One player's block in the comparison result. -/
structure PlayerCmp where
  name : String
  position : Option String
  team : Option String
  stats : List (String × ℚ)
deriving DecidableEq

/-- Per-statistic aggregate: `min`, `max`, `mean`. -/
structure StatSummary where
  min : ℚ
  max : ℚ
  mean : ℚ
deriving DecidableEq

/-- Python `min` over a non-empty list (0 on the unreachable empty case). -/
def pyListMin : List ℚ → ℚ
  | [] => 0
  | x :: xs => xs.foldl (fun a b => if b < a then b else a) x

/-- Python `max` over a non-empty list (0 on the unreachable empty case). -/
def pyListMax : List ℚ → ℚ
  | [] => 0
  | x :: xs => xs.foldl (fun a b => if a < b then b else a) x

/-- `sum(values) / len(values) if values else 0`. -/
def pyMean (vs : List ℚ) : ℚ :=
  if vs.isEmpty then 0 else vs.sum / (vs.length : ℚ)

/-- The comparison result (`result_data`); `failed_players` is `[]` when the
key is absent. -/
structure ComparisonResult where
  players : List (String × PlayerCmp)
  stats_compared : List String
  stats_info : List (String × StatSummary)
  season_id : String
  failed_players : List (String × String)
deriving DecidableEq

/-- Default comparison statistics. -/
def defaultStats : List String :=
  ["appearances", "mins_played", "goals", "goal_assist"]

/-- Python `repr` of a string without double quotes: single-quoted unless the
string itself contains a single quote. -/
def pyReprStr (s : String) : String :=
  if pyIn "\x27" s && !(pyIn "\"" s) then "\"" ++ s ++ "\""
  else "\x27" ++ s ++ "\x27"

/-- Python `str` of a list of strings. -/
def pyStrList (l : List String) : String :=
  "[" ++ String.intercalate ", " (l.map pyReprStr) ++ "]"

/-- Message of the not-enough-players aggregate failure. -/
def comparisonFailMsg (nOk nFail : ℕ) (failed : List (String × String)) :
    String :=
  let base := "Failed to get data for enough players. Successful: " ++
    toString nOk ++ ", Failed: " ++ toString nFail
  if failed.isEmpty then base
  else base ++ "\nFailed players: " ++
    pyStrList (failed.map (fun f => f.1 ++ " (" ++ f.2 ++ ")"))

/-- `EPLAPI.get_player_comparison`.  The two `"df"`/`"json"` output branches
carry the same data, so the result structure is returned for both. -/
def get_player_comparison (player_names : List String) (season_id : String)
    (stats_to_compare : Option (List String))
    (players_list : Except PyErr (List PlayerRecord))
    (stats_oracle : String → List (String × ℚ)) :
    Except PyErr ComparisonResult :=
  let stats := stats_to_compare.getD defaultStats
  if player_names.length < 2 then
    .error ⟨.invalidArgument, "At least 2 players are required for comparison"⟩
  else if player_names.dedup.length ≠ player_names.length then
    .error ⟨.invalidArgument, "Duplicate player names found in the list"⟩
  else
    match players_list with
    | .error e => .error ⟨e.kind, "Failed to get players list: " ++ e.msg⟩
    | .ok all_players =>
      let resolved := resolved_pairs all_players player_names
      let failed := failed_pairs all_players player_names season_id
      let players_data := resolved.map (fun ni =>
        (ni.1, (⟨ni.2.name, ni.2.position, ni.2.team,
          player_comparison_stats stats (stats_oracle ni.2.id)⟩ : PlayerCmp)))
      if players_data.length < 2 then
        .error ⟨.aggregateFailure,
          comparisonFailMsg players_data.length failed.length failed⟩
      else
        let stats_info := stats.map (fun s =>
          let values := players_data.map
            (fun pd => (pyDictFind pd.2.stats s).getD 0)
          (s, (⟨pyListMin values, pyListMax values, pyMean values⟩ : StatSummary)))
        .ok ⟨players_data, stats, stats_info, season_id, failed⟩

/-- The per-statistic value list the aggregates run over: one value per
resolved player, missing stats as 0. -/
def stat_values (all_players : List PlayerRecord) (player_names : List String)
    (stats_oracle : String → List (String × ℚ)) (s : String) : List ℚ :=
  (resolved_pairs all_players player_names).map
    (fun ni => (pyDictFind (stats_oracle ni.2.id) s).getD 0)

theorem resolved_pairs_map_fst (all_players : List PlayerRecord)
    (player_names : List String) :
    (resolved_pairs all_players player_names).map Prod.fst =
      player_names.filter (fun n => (resolve_player all_players n).isSome) := by
  induction player_names with
  | nil => rfl
  | cons n ns ih =>
    cases h : resolve_player all_players n with
    | none =>
      simp only [resolved_pairs, List.filterMap_cons, h, Option.map_none',
        List.filter_cons, Option.isSome_none, Bool.false_eq_true, if_false]
      exact ih
    | some info =>
      simp only [resolved_pairs, List.filterMap_cons, h, Option.map_some',
        List.filter_cons, Option.isSome_some, if_true, List.map_cons]
      exact congrArg (n :: ·) ih

theorem resolved_pairs_length (all_players : List PlayerRecord)
    (player_names : List String) :
    (resolved_pairs all_players player_names).length =
      (player_names.filter
        (fun n => (resolve_player all_players n).isSome)).length := by
  have h := congrArg List.length (resolved_pairs_map_fst all_players player_names)
  simpa using h

theorem mem_resolved_pairs {all_players : List PlayerRecord}
    {player_names : List String} {n : String} {info : PInfo} :
    (n, info) ∈ resolved_pairs all_players player_names ↔
      n ∈ player_names ∧ resolve_player all_players n = some info := by
  constructor
  · intro h
    obtain ⟨a, ha, hfa⟩ := List.mem_filterMap.mp h
    cases hra : resolve_player all_players a with
    | none => rw [hra] at hfa; simp at hfa
    | some i =>
      rw [hra] at hfa
      simp only [Option.map_some', Option.some.injEq, Prod.mk.injEq] at hfa
      obtain ⟨rfl, rfl⟩ := hfa
      exact ⟨ha, hra⟩
  · intro ⟨hn, hres⟩
    exact List.mem_filterMap.mpr ⟨n, hn, by rw [hres]; rfl⟩

theorem pyDictFind_map_self (f : String → ℚ) (l : List String) (s : String)
    (hs : s ∈ l) :
    pyDictFind (l.map (fun x => (x, f x))) s = some (f s) := by
  have key : ∀ lr : List String, s ∈ lr →
      (lr.map (fun x => (x, f x))).find? (fun kv => kv.1 == s) =
        some (s, f s) := by
    intro lr hmem
    induction lr with
    | nil => cases hmem
    | cons x xs ih =>
      by_cases hx : (x == s) = true
      · have hxs : x = s := by simpa using hx
        subst hxs
        simp [List.find?]
      · have hxs : x ≠ s := by simpa using hx
        have hmem' : s ∈ xs := by
          rcases List.mem_cons.mp hmem with h | h
          · exact absurd h.symm hxs
          · exact h
        simp only [List.map_cons, List.find?]
        have : ((x, f x).1 == s) = false := by simpa using hxs
        rw [this]
        exact ih hmem'
  rw [pyDictFind, ← List.map_reverse, key l.reverse (by simpa using hs)]
  rfl

theorem player_comparison_stats_find {stats_to_compare : List String}
    (stats_list : List (String × ℚ)) {s : String} (hs : s ∈ stats_to_compare) :
    pyDictFind (player_comparison_stats stats_to_compare stats_list) s =
      some ((pyDictFind stats_list s).getD 0) :=
  pyDictFind_map_self (fun x => (pyDictFind stats_list x).getD 0)
    stats_to_compare s hs

/-- The `players_data` block built for the resolved players. -/
def players_data_of (stats_to_compare : List String)
    (stats_oracle : String → List (String × ℚ))
    (resolved : List (String × PInfo)) : List (String × PlayerCmp) :=
  resolved.map (fun ni =>
    (ni.1, (⟨ni.2.name, ni.2.position, ni.2.team,
      player_comparison_stats stats_to_compare (stats_oracle ni.2.id)⟩ :
        PlayerCmp)))

theorem comparison_values_eq (stats_to_compare : List String)
    (stats_oracle : String → List (String × ℚ))
    (resolved : List (String × PInfo)) {s : String} (hs : s ∈ stats_to_compare) :
    (players_data_of stats_to_compare stats_oracle resolved).map
        (fun pd => (pyDictFind pd.2.stats s).getD 0) =
      resolved.map (fun ni => (pyDictFind (stats_oracle ni.2.id) s).getD 0) := by
  rw [players_data_of, List.map_map]
  apply List.map_congr_left
  intro ni _
  simp [Function.comp, player_comparison_stats_find _ hs]

theorem get_player_comparison_short (player_names : List String)
    (season_id : String) (stats_to_compare : Option (List String))
    (players_list : Except PyErr (List PlayerRecord))
    (stats_oracle : String → List (String × ℚ))
    (hshort : player_names.length < 2) :
    get_player_comparison player_names season_id stats_to_compare players_list
        stats_oracle =
      .error ⟨.invalidArgument,
        "At least 2 players are required for comparison"⟩ := by
  simp only [get_player_comparison]
  rw [if_pos hshort]


theorem stat_values_eq (stats_to_compare : List String)
    (stats_oracle : String → List (String × ℚ))
    (all_players : List PlayerRecord) (player_names : List String)
    {s : String} (hs : s ∈ stats_to_compare) :
    (players_data_of stats_to_compare stats_oracle
        (resolved_pairs all_players player_names)).map
      (fun pd => (pyDictFind pd.2.stats s).getD 0) =
    stat_values all_players player_names stats_oracle s :=
  comparison_values_eq stats_to_compare stats_oracle _ hs

theorem get_player_comparison_agg (player_names : List String)
    (season_id : String) (stats_to_compare : List String)
    (all_players : List PlayerRecord)
    (stats_oracle : String → List (String × ℚ))
    (hnd : player_names.Nodup) (hlen : ¬ player_names.length < 2)
    (hlt : (resolved_pairs all_players player_names).length < 2) :
    get_player_comparison player_names season_id (some stats_to_compare)
        (.ok all_players) stats_oracle =
      .error ⟨.aggregateFailure,
        comparisonFailMsg (resolved_pairs all_players player_names).length
          (failed_pairs all_players player_names season_id).length
          (failed_pairs all_players player_names season_id)⟩ := by
  have hdedup : ¬ player_names.dedup.length ≠ player_names.length := by
    rw [List.Nodup.dedup hnd]
    simp
  simp only [get_player_comparison, Option.getD_some, if_neg hlen,
    if_neg hdedup, List.length_map]
  rw [if_pos hlt]

theorem get_player_comparison_ok_eval (player_names : List String)
    (season_id : String) (stats_to_compare : List String)
    (all_players : List PlayerRecord)
    (stats_oracle : String → List (String × ℚ))
    (hnd : player_names.Nodup)
    (h2 : 2 ≤ (resolved_pairs all_players player_names).length) :
    get_player_comparison player_names season_id (some stats_to_compare)
        (.ok all_players) stats_oracle =
      .ok ⟨players_data_of stats_to_compare stats_oracle
            (resolved_pairs all_players player_names),
          stats_to_compare,
          stats_to_compare.map (fun s =>
            (s, ⟨pyListMin ((players_data_of stats_to_compare stats_oracle
                    (resolved_pairs all_players player_names)).map
                  (fun pd => (pyDictFind pd.2.stats s).getD 0)),
                 pyListMax ((players_data_of stats_to_compare stats_oracle
                    (resolved_pairs all_players player_names)).map
                  (fun pd => (pyDictFind pd.2.stats s).getD 0)),
                 pyMean ((players_data_of stats_to_compare stats_oracle
                    (resolved_pairs all_players player_names)).map
                  (fun pd => (pyDictFind pd.2.stats s).getD 0))⟩)),
          season_id,
          failed_pairs all_players player_names season_id⟩ := by
  have hdedup : ¬ player_names.dedup.length ≠ player_names.length := by
    rw [List.Nodup.dedup hnd]
    simp
  have hlen : ¬ player_names.length < 2 := by
    have hf := resolved_pairs_length all_players player_names
    have hle : (player_names.filter
        (fun n => (resolve_player all_players n).isSome)).length ≤
        player_names.length := List.length_filter_le _ _
    omega
  simp only [get_player_comparison, Option.getD_some, if_neg hlen,
    if_neg hdedup, List.length_map]
  rw [if_neg (by omega :
    ¬ (resolved_pairs all_players player_names).length < 2)]
  rfl

/-- C8: with distinct requested names (the player-list fetch succeeding and
per-player stats fetches modelled as total, so a per-player failure is a
resolution failure), the comparison succeeds exactly when at least two of the
requested names resolve; on success the result lists the resolved players in
request order carrying each requested statistic's value, and per requested
statistic a min, max and mean computed across exactly the resolved players;
with fewer than two resolving it fails with an aggregate error listing every
per-player failure reason. -/
theorem claim_C8 (player_names : List String) (season_id : String)
    (stats_to_compare : List String) (all_players : List PlayerRecord)
    (stats_oracle : String → List (String × ℚ))
    (hnd : player_names.Nodup) :
    ((∃ r, get_player_comparison player_names season_id (some stats_to_compare)
        (.ok all_players) stats_oracle = .ok r) ↔
      2 ≤ (resolved_pairs all_players player_names).length) ∧
    (∀ r, get_player_comparison player_names season_id (some stats_to_compare)
        (.ok all_players) stats_oracle = .ok r →
      (r.players.map Prod.fst =
        player_names.filter (fun n => (resolve_player all_players n).isSome)) ∧
      (∀ n info, n ∈ player_names → resolve_player all_players n = some info →
        (n, (⟨info.name, info.position, info.team,
          player_comparison_stats stats_to_compare
            (stats_oracle info.id)⟩ : PlayerCmp)) ∈ r.players) ∧
      (∀ np ∈ r.players, ∀ s ∈ stats_to_compare, ∃ info,
        resolve_player all_players np.1 = some info ∧
        pyDictFind np.2.stats s =
          some ((pyDictFind (stats_oracle info.id) s).getD 0)) ∧
      r.stats_info = stats_to_compare.map (fun s =>
        (s, ⟨pyListMin (stat_values all_players player_names stats_oracle s),
             pyListMax (stat_values all_players player_names stats_oracle s),
             pyMean (stat_values all_players player_names stats_oracle s)⟩))) ∧
    ((resolved_pairs all_players player_names).length < 2 →
      2 ≤ player_names.length →
      get_player_comparison player_names season_id (some stats_to_compare)
          (.ok all_players) stats_oracle =
        .error ⟨.aggregateFailure,
          comparisonFailMsg (resolved_pairs all_players player_names).length
            (failed_pairs all_players player_names season_id).length
            (failed_pairs all_players player_names season_id)⟩ ∧
      failed_pairs all_players player_names season_id =
        (player_names.filter
          (fun n => (resolve_player all_players n).isNone)).map
          (fun n => (n, playerNotFoundMsg n season_id))) := by
  refine ⟨⟨?_, ?_⟩, ?_, ?_⟩
  · rintro ⟨r, hr⟩
    by_contra hlt
    push_neg at hlt
    by_cases hlen : player_names.length < 2
    · rw [get_player_comparison_short _ _ _ _ _ hlen] at hr
      exact Except.noConfusion hr
    · rw [get_player_comparison_agg _ _ _ _ _ hnd hlen hlt] at hr
      exact Except.noConfusion hr
  · intro h2
    exact ⟨_, get_player_comparison_ok_eval _ _ _ _ _ hnd h2⟩
  · intro r hr
    have h2 : 2 ≤ (resolved_pairs all_players player_names).length := by
      by_contra hlt
      push_neg at hlt
      by_cases hlen : player_names.length < 2
      · rw [get_player_comparison_short _ _ _ _ _ hlen] at hr
        exact Except.noConfusion hr
      · rw [get_player_comparison_agg _ _ _ _ _ hnd hlen hlt] at hr
        exact Except.noConfusion hr
    rw [get_player_comparison_ok_eval _ _ _ _ _ hnd h2] at hr
    have hre := (Except.ok.inj hr).symm
    subst hre
    refine ⟨?_, ?_, ?_, ?_⟩
    · have hmm : (players_data_of stats_to_compare stats_oracle
          (resolved_pairs all_players player_names)).map Prod.fst =
          (resolved_pairs all_players player_names).map Prod.fst := by
        rw [players_data_of, List.map_map]
        apply List.map_congr_left
        intro ni _
        rfl
      exact hmm.trans (resolved_pairs_map_fst all_players player_names)
    · intro n info hn hres
      exact List.mem_map.mpr
        ⟨(n, info), mem_resolved_pairs.mpr ⟨hn, hres⟩, rfl⟩
    · intro np hnp s hs
      obtain ⟨⟨n1, i1⟩, hni, rfl⟩ := List.mem_map.mp hnp
      exact ⟨i1, (mem_resolved_pairs.mp hni).2,
        player_comparison_stats_find _ hs⟩
    · apply List.map_congr_left
      intro s hs
      rw [stat_values_eq stats_to_compare stats_oracle all_players
        player_names hs]
  · intro hlt hlen2
    exact ⟨get_player_comparison_agg _ _ _ _ _ hnd (by omega) hlt, rfl⟩

/-- The mocked player list of the spec's comparison test. -/
def cmpAllPlayers : List PlayerRecord :=
  [⟨"65970", "Erling Haaland", some "Forward", some "Manchester City", none⟩,
   ⟨"5178", "Mohamed Salah", some "Forward", some "Liverpool", none⟩]

/-- The requested names of the comparison test. -/
def cmpNames : List String := ["Erling Haaland", "Mohamed Salah"]

/-- The mocked per-player stats of the comparison test. -/
def cmpOracle : String → List (String × ℚ) := fun id =>
  if id == "65970" then [("goals", 15), ("appearances", 10)]
  else if id == "5178" then [("goals", 12), ("appearances", 11)] else []

/-- The comparison result on the mocked data (aggregates left symbolic:
rational arithmetic is evaluated in the witness by `norm_num`). -/
def rDemo : ComparisonResult :=
  ⟨[("Erling Haaland",
      ⟨"Erling Haaland", some "Forward", some "Manchester City",
        [("goals", 15)]⟩),
    ("Mohamed Salah",
      ⟨"Mohamed Salah", some "Forward", some "Liverpool", [("goals", 12)]⟩)],
   ["goals"],
   [("goals", ⟨pyListMin [15, 12], pyListMax [15, 12], pyMean [15, 12]⟩)],
   "719", []⟩

/-- Witness for C8 on the mocked comparison: both names resolve, each
player's `goals` value is reported, and the `goals` summary is `min 12`,
`max 15`, `mean 27/2` across exactly the two resolved players. -/
theorem claim_C8_witness :
    rDemo.players.map Prod.fst = ["Erling Haaland", "Mohamed Salah"] ∧
    rDemo.stats_info = [("goals", ⟨12, 15, 27/2⟩)] := by
  have h := (claim_C8 cmpNames "719" ["goals"] cmpAllPlayers cmpOracle
    (by decide)).2.1 rDemo rfl
  refine ⟨h.1.trans (by decide), ?_⟩
  show [("goals", ⟨pyListMin [15, 12], pyListMax [15, 12], pyMean [15, 12]⟩)] =
    [("goals", (⟨12, 15, 27/2⟩ : StatSummary))]
  norm_num [pyListMin, pyListMax, pyMean]

/-- C9: in a successful comparison, a requested statistic absent from a
resolved player's stats list is treated as 0: the player's reported value for
it is 0, the 0 participates in the per-statistic value list the aggregates
are computed over, and the aggregates are exactly min/max/mean of that
list. -/
theorem claim_C9 (player_names : List String) (season_id : String)
    (stats_to_compare : List String) (all_players : List PlayerRecord)
    (stats_oracle : String → List (String × ℚ))
    (hnd : player_names.Nodup) (n : String) (info : PInfo) (s : String)
    (hn : n ∈ player_names) (hres : resolve_player all_players n = some info)
    (hs : s ∈ stats_to_compare)
    (hmiss : pyDictFind (stats_oracle info.id) s = none)
    (r : ComparisonResult)
    (hok : get_player_comparison player_names season_id (some stats_to_compare)
      (.ok all_players) stats_oracle = .ok r) :
    (n, (⟨info.name, info.position, info.team,
      player_comparison_stats stats_to_compare (stats_oracle info.id)⟩ :
        PlayerCmp)) ∈ r.players ∧
    pyDictFind (player_comparison_stats stats_to_compare (stats_oracle info.id))
      s = some 0 ∧
    (0 : ℚ) ∈ stat_values all_players player_names stats_oracle s ∧
    r.stats_info = stats_to_compare.map (fun s =>
      (s, ⟨pyListMin (stat_values all_players player_names stats_oracle s),
           pyListMax (stat_values all_players player_names stats_oracle s),
           pyMean (stat_values all_players player_names stats_oracle s)⟩)) := by
  have h2 : 2 ≤ (resolved_pairs all_players player_names).length := by
    by_contra hlt
    push_neg at hlt
    by_cases hlen : player_names.length < 2
    · rw [get_player_comparison_short _ _ _ _ _ hlen] at hok
      exact Except.noConfusion hok
    · rw [get_player_comparison_agg _ _ _ _ _ hnd hlen hlt] at hok
      exact Except.noConfusion hok
  rw [get_player_comparison_ok_eval _ _ _ _ _ hnd h2] at hok
  have hre := (Except.ok.inj hok).symm
  subst hre
  refine ⟨?_, ?_, ?_, ?_⟩
  · exact List.mem_map.mpr ⟨(n, info), mem_resolved_pairs.mpr ⟨hn, hres⟩, rfl⟩
  · rw [player_comparison_stats_find _ hs, hmiss]
    rfl
  · refine List.mem_map.mpr ⟨(n, info), mem_resolved_pairs.mpr ⟨hn, hres⟩, ?_⟩
    rw [hmiss]
    rfl
  · apply List.map_congr_left
    intro t ht
    rw [stat_values_eq stats_to_compare stats_oracle all_players player_names ht]

/-- Per-player stats for the C9 witness: Salah's list lacks `goal_assist`. -/
def cmpOracle9 : String → List (String × ℚ) := fun id =>
  if id == "65970" then [("goals", 15), ("goal_assist", 3)]
  else if id == "5178" then [("goals", 12)] else []

/-- The resolved info of Mohamed Salah in the mocked list. -/
def salahInfo : PInfo :=
  ⟨"5178", "Mohamed Salah", some "Forward", some "Liverpool"⟩

/-- The comparison result for the C9 witness. -/
def rDemo9 : ComparisonResult :=
  ⟨[("Erling Haaland",
      ⟨"Erling Haaland", some "Forward", some "Manchester City",
        [("goal_assist", 3)]⟩),
    ("Mohamed Salah",
      ⟨"Mohamed Salah", some "Forward", some "Liverpool",
        [("goal_assist", 0)]⟩)],
   ["goal_assist"],
   [("goal_assist", ⟨pyListMin [3, 0], pyListMax [3, 0], pyMean [3, 0]⟩)],
   "719", []⟩

/-- Witness for C9: `goal_assist` is missing from Salah's stats list, is
reported as 0 for him, and the 0 participates in the aggregate value list. -/
theorem claim_C9_witness :
    pyDictFind (player_comparison_stats ["goal_assist"] (cmpOracle9 "5178"))
      "goal_assist" = some 0 ∧
    (0 : ℚ) ∈ stat_values cmpAllPlayers cmpNames cmpOracle9 "goal_assist" := by
  have h := claim_C9 cmpNames "719" ["goal_assist"] cmpAllPlayers cmpOracle9
    (by decide) "Mohamed Salah" salahInfo "goal_assist" (by decide) rfl
    (by decide) rfl rDemo9 rfl
  exact ⟨h.2.1, h.2.2.1⟩
